import Mathlib

/-
Verification of the theme-state controller in jonirrings/hello-gp.

The repository contains two copies of the controller:
  src/crates/hello-gp/src/themes.rs  (referred to below as the Crates copy)
  src/src/themes.rs                  (referred to below as the RootSrc copy)

The embedding models the repository code faithfully; external collaborators
(the gpui framework's global Theme, the ThemeRegistry, serde_json's text
layer, the directories crate's OS lookup, the filesystem) are modelled
abstractly, as parameters or small structures, at the granularity the code
uses them.
-/

namespace HelloGP

/-- Filesystem paths. PathBuf values are modelled as plain strings;
PathBuf::from on a string is the identity and join inserts a separator. -/
abbrev Path := String

/-- Models PathBuf::join: appends one component after a separator. -/
def pathJoin (p : Path) (s : String) : Path := p ++ "/" ++ s

/-- Models the directories crate's ProjectDirs value for
("cn", "o0x0o", crate name): the OS per-user local config and data
directories. The OS lookup itself is external; a successful lookup is an
arbitrary value of this structure, a failing one is none. -/
structure ProjectDirs where
  config_local_dir : Path
  data_local_dir : Path
deriving DecidableEq, Repr

namespace Crates

/-- Embeds get_config_dir from src/crates/hello-gp/src/themes.rs lines
26-35. CONFIG_FOLDER is the cached value of the {PROJECT}_CONFIG
environment variable mapped through PathBuf::from (identity on the string);
projDirs is the outcome of the ProjectDirs OS lookup. -/
def get_config_dir (CONFIG_FOLDER : Option Path) (projDirs : Option ProjectDirs) : Path :=
  match CONFIG_FOLDER with
  | some s => s
  | none =>
    match projDirs with
    | some proj_dirs => proj_dirs.config_local_dir
    | none => pathJoin "." ".config"

/-- Embeds get_data_dir from src/crates/hello-gp/src/themes.rs lines
36-45, with DATA_FOLDER the cached {PROJECT}_DATA override. -/
def get_data_dir (DATA_FOLDER : Option Path) (projDirs : Option ProjectDirs) : Path :=
  match DATA_FOLDER with
  | some s => s
  | none =>
    match projDirs with
    | some proj_dirs => proj_dirs.data_local_dir
    | none => pathJoin "." ".data"

end Crates

namespace RootSrc

/-- Embeds get_config_dir from src/src/themes.rs lines 33-42. -/
def get_config_dir (CONFIG_FOLDER : Option Path) (projDirs : Option ProjectDirs) : Path :=
  match CONFIG_FOLDER with
  | some s => s
  | none =>
    match projDirs with
    | some proj_dirs => proj_dirs.config_local_dir
    | none => pathJoin "." ".config"

/-- Embeds get_data_dir from src/src/themes.rs lines 43-52. -/
def get_data_dir (DATA_FOLDER : Option Path) (projDirs : Option ProjectDirs) : Path :=
  match DATA_FOLDER with
  | some s => s
  | none =>
    match projDirs with
    | some proj_dirs => proj_dirs.data_local_dir
    | none => pathJoin "." ".data"

end RootSrc

/-- Models gpui_component::scroll::ScrollbarShow, the external enumerated
scrollbar-visibility preference (spec section 3 and the glossary:
always / while scrolling / on hover / never). -/
inductive ScrollbarShow where
  | always
  | scrolling
  | hover
  | never
deriving DecidableEq, Repr

/-- Serde serialization of a ScrollbarShow variant to a JSON string. -/
def ScrollbarShow.toStr : ScrollbarShow → String
  | ScrollbarShow.always => "always"
  | ScrollbarShow.scrolling => "scrolling"
  | ScrollbarShow.hover => "hover"
  | ScrollbarShow.never => "never"

/-- Serde deserialization of a ScrollbarShow variant from a JSON string. -/
def ScrollbarShow.fromStr (s : String) : Option ScrollbarShow :=
  if s = "always" then some ScrollbarShow.always
  else if s = "scrolling" then some ScrollbarShow.scrolling
  else if s = "hover" then some ScrollbarShow.hover
  else if s = "never" then some ScrollbarShow.never
  else none

/-- JSON documents at the structural level. Parsing and printing the text
form is serde_json's job (an external collaborator); the repository code is
modelled over documents. -/
inductive Json where
  | null
  | bool (b : Bool)
  | str (s : String)
  | obj (fields : List (String × Json))

/-- Field lookup in a JSON object, by name. -/
def lookupField : List (String × Json) → String → Option Json
  | [], _ => none
  | (k, v) :: rest, name => if k = name then some v else lookupField rest name

/-- Embeds struct State from src/crates/hello-gp/src/themes.rs lines 46-50
(identical in src/src/themes.rs lines 53-57): the PersistedState record
with a theme name (SharedString) and an optional scrollbar preference. -/
structure State where
  theme : String
  scrollbar_show : Option ScrollbarShow
deriving DecidableEq, Repr

/-- Embeds impl Default for State (both copies): theme "Default Light",
scrollbar_show absent. -/
def State.default : State :=
  { theme := "Default Light", scrollbar_show := none }

/-- Derived serde Serialize for State: a JSON object with the two field
names, scrollbar_show rendered as null when absent. -/
def State.toJson (s : State) : Json :=
  Json.obj
    [("theme", Json.str s.theme),
     ("scrollbar_show",
       match s.scrollbar_show with
       | none => Json.null
       | some v => Json.str v.toStr)]

/-- Derived serde Deserialize for the fields of State, following the
generated visit_map: fields are visited in document order carrying one
accumulator per documented field; a repeated documented field is a
duplicate_field error; a theme value that is not a string, or a
scrollbar_show value that is neither null nor a known variant string, is
an error; unknown fields are ignored (no deny_unknown_fields attribute);
at the end a missing theme is a missing_field error while a missing
scrollbar_show, an Option field, defaults to none. -/
def State.fromFields :
    List (String × Json) → Option String → Option (Option ScrollbarShow) → Option State
  | [], themeAcc, sbAcc =>
    match themeAcc with
    | some t => some { theme := t, scrollbar_show := sbAcc.getD none }
    | none => none
  | (k, v) :: rest, themeAcc, sbAcc =>
    if k = "theme" then
      match themeAcc with
      | some _ => none
      | none =>
        match v with
        | Json.str t => State.fromFields rest (some t) sbAcc
        | _ => none
    else if k = "scrollbar_show" then
      match sbAcc with
      | some _ => none
      | none =>
        match v with
        | Json.null => State.fromFields rest themeAcc (some none)
        | Json.str s =>
          match ScrollbarShow.fromStr s with
          | some sv => State.fromFields rest themeAcc (some (some sv))
          | none => none
        | _ => none
    else
      State.fromFields rest themeAcc sbAcc

/-- Derived serde Deserialize for State: the document must be an object,
whose fields are visited with empty accumulators. -/
def State.fromJson : Json → Option State
  | Json.obj fields => State.fromFields fields none none
  | _ => none

/-- The field names the derived Deserialize recognizes; every other field
is skipped as IgnoredAny. -/
def isKnownField (kv : String × Json) : Bool :=
  kv.1 == "theme" || kv.1 == "scrollbar_show"

/-- The load path at the document level: serde_json::from_str parsed the
text to a document (or failed, giving none); unwrap_or_default then yields
State::default on any failure. Embeds themes.rs init lines 67-69 of the
Crates copy (73-75 of the RootSrc copy). -/
def loadDoc (doc : Option Json) : State :=
  (doc.bind State.fromJson).getD State.default

/-- The full load path: std::fs::read_to_string(config_path).unwrap_or
(String::default()) followed by serde_json::from_str::<State>(..)
.unwrap_or_default(). The text-level parser is serde_json's, supplied as a
parameter; readResult is none when the read fails. -/
def load (parse : String → Option Json) (readResult : Option String) : State :=
  loadDoc (parse (readResult.getD ""))

/-- Models a theme configuration from the external ThemeRegistry: a name
keying the registry plus the rest of the visual configuration, opaque to
this controller. -/
structure ThemeConfig where
  name : String
  payload : String
deriving DecidableEq, Repr

/-- Models the global Theme object owned by the gpui framework: the active
theme name, the scrollbar preference, and the rest of the applied visual
configuration. -/
structure Theme where
  theme_name : String
  scrollbar_show : ScrollbarShow
  payload : String
deriving DecidableEq, Repr

/-- Models Theme::apply_config: the global Theme takes on the given
configuration, so its theme_name becomes the config's name; the scrollbar
preference is a separate Theme field not carried by the config. -/
def applyConfig (t : Theme) (c : ThemeConfig) : Theme :=
  { theme_name := c.name, scrollbar_show := t.scrollbar_show, payload := c.payload }

/-- Models the ThemeRegistry's name-to-configuration mapping as a list of
configurations keyed by their names. -/
abbrev Registry := List ThemeConfig

/-- Models ThemeRegistry::global(cx).themes().get(name): lookup by theme
name. -/
def themesGet (reg : Registry) (n : String) : Option ThemeConfig :=
  reg.find? (fun c => c.name == n)

/-- Embeds the SwitchTheme action handler from
src/crates/hello-gp/src/themes.rs lines 101-107: look the name up in the
registry; if found, apply the configuration to the global Theme; otherwise
leave the Theme untouched (windows are refreshed either way, which does
not affect the Theme). -/
def onSwitchTheme (reg : Registry) (n : String) (t : Theme) : Theme :=
  match themesGet reg n with
  | some c => applyConfig t c
  | none => t

/-- Embeds the watch_dir callback from src/crates/hello-gp/src/themes.rs
lines 70-78 (src/src/themes.rs lines 76-84): look the captured saved theme
name up in the refreshed registry; if present, apply its configuration to
the global Theme. -/
def watcherCallback (saved : String) (reg : Registry) (t : Theme) : Theme :=
  match themesGet reg saved with
  | some c => applyConfig t c
  | none => t

/-- Embeds the state built by the global-Theme observer
(src/crates/hello-gp/src/themes.rs lines 88-91, src/src/themes.rs lines
94-97): the Theme's current name, and its current scrollbar setting always
wrapped in Some. -/
def observedState (t : Theme) : State :=
  { theme := t.theme_name, scrollbar_show := some t.scrollbar_show }

/-- The document the observer persists: serde_json::to_string_pretty of
the freshly observed state, modelled at the document level. -/
def observerWrite (t : Theme) : Json :=
  State.toJson (observedState t)

/-- Models serde_json::to_string_pretty on a State value: serialization of
this struct cannot fail, so the result is always Ok. -/
def serializePretty (s : State) : Except String Json :=
  Except.ok (State.toJson s)

/-- Embeds the observer body of the Crates copy
(src/crates/hello-gp/src/themes.rs lines 94-97): `if let Ok(json) = ...`
then `let _ = std::fs::write(...)`. The filesystem write outcome is a
parameter; its result is discarded, and a serialize error falls through,
so the observer never surfaces an error. Except.error models a panic or a
surfaced error. -/
def observerSaveCrates (writeOutcome : Except String Unit) (t : Theme) : Except String Unit :=
  match serializePretty (observedState t) with
  | Except.ok _ =>
    let _ := writeOutcome
    Except.ok ()
  | Except.error _ => Except.ok ()

/-- Embeds the observer body of the RootSrc copy (src/src/themes.rs lines
100-101): serde_json::to_string_pretty(&state).unwrap() followed by
std::fs::write(config_path, json).unwrap(). Each unwrap panics on an Err,
modelled by propagating the error. -/
def observerSaveRoot (writeOutcome : Except String Unit) (t : Theme) : Except String Unit :=
  match serializePretty (observedState t) with
  | Except.ok _ => writeOutcome
  | Except.error e => Except.error e

/-- Snapshot of the controller-relevant process state: the global Theme,
the current registry, the saved theme name captured by value in the
watcher closure at init, and the persisted document (none when nothing has
been written since startup). -/
structure Sys where
  theme : Theme
  registry : Registry
  savedName : String
  file : Option Json

/-- Events the controller reacts to after init: a dispatched
SwitchTheme(name), a registry reload firing the watcher callback, and any
other framework mutation of the global Theme. Every committed mutation of
the global Theme fires the observer, which persists the freshly observed
state. -/
inductive Event where
  | switchTheme (n : String)
  | reload (r : Registry)
  | mutate (t : Theme)

/-- Embeds init (src/crates/hello-gp/src/themes.rs lines 61-99): load the
persisted state from the config document, install the watcher closure
capturing state.theme by value, apply the scrollbar preference to the
global Theme if present (before the observer is installed, so no save
fires), leaving the persisted document as it was. -/
def init (doc : Option Json) (reg : Registry) (t0 : Theme) : Sys :=
  let st := loadDoc doc
  let t1 :=
    match st.scrollbar_show with
    | some sb => { t0 with scrollbar_show := sb }
    | none => t0
  { theme := t1, registry := reg, savedName := st.theme, file := doc }

/-- One controller step per event. Theme::global_mut is only reached when
a configuration is found, so the observer (and hence the file write) fires
only on an actual mutation. -/
def step (s : Sys) : Event → Sys
  | Event.switchTheme n =>
    match themesGet s.registry n with
    | some c =>
      let t1 := applyConfig s.theme c
      { s with theme := t1, file := some (observerWrite t1) }
    | none => s
  | Event.reload r =>
    match themesGet r s.savedName with
    | some c =>
      let t1 := applyConfig s.theme c
      { s with registry := r, theme := t1, file := some (observerWrite t1) }
    | none => { s with registry := r }
  | Event.mutate t1 => { s with theme := t1, file := some (observerWrite t1) }

/-- A configuration found by themesGet is keyed by the looked-up name. -/
theorem themesGet_name (reg : Registry) (n : String) (c : ThemeConfig)
    (h : themesGet reg n = some c) : c.name = n := by
  induction reg with
  | nil => simp [themesGet, List.find?] at h
  | cons a tl ih =>
    rw [themesGet, List.find?] at h
    cases hb : (a.name == n) with
    | true =>
      rw [hb] at h
      cases h
      exact eq_of_beq hb
    | false =>
      rw [hb] at h
      exact ih h

/-- C4: config_dir resolution precedence: a set {PROJECT}_CONFIG value is
returned verbatim regardless of the OS lookup; otherwise the OS per-user
local configuration directory when the lookup succeeds; otherwise
./.config. data_dir behaves identically with {PROJECT}_DATA and ./.data. -/
theorem path_resolution_precedence :
    (∀ (p : Path) (d : Option ProjectDirs), Crates.get_config_dir (some p) d = p)
    ∧ (∀ pd : ProjectDirs, Crates.get_config_dir none (some pd) = pd.config_local_dir)
    ∧ Crates.get_config_dir none none = "./.config"
    ∧ (∀ (p : Path) (d : Option ProjectDirs), Crates.get_data_dir (some p) d = p)
    ∧ (∀ pd : ProjectDirs, Crates.get_data_dir none (some pd) = pd.data_local_dir)
    ∧ Crates.get_data_dir none none = "./.data"
    ∧ (∀ d : Option ProjectDirs, Crates.get_config_dir (some "/tmp/xcfg") d = "/tmp/xcfg") := by
  refine ⟨fun p d => rfl, fun pd => rfl, rfl, fun p d => rfl, fun pd => rfl, rfl, fun d => rfl⟩

/-- C10: the two copies of the Path Resolver are extensionally equal:
given the same cached environment override and the same OS lookup outcome,
both get_config_dir functions return the same path, and likewise for
get_data_dir. -/
theorem path_resolver_copies_extensionally_equal :
    ∀ (cf df : Option Path) (d : Option ProjectDirs),
      Crates.get_config_dir cf d = RootSrc.get_config_dir cf d
      ∧ Crates.get_data_dir df d = RootSrc.get_data_dir df d :=
  fun _ _ _ => ⟨rfl, rfl⟩

/-- C2: load never fails outwardly: on a failed read (read_to_string
yields no text, so the empty string is parsed), on any text the parser
rejects, and on any parsed document that does not deserialize to a State,
load returns the default PersistedState, which is theme "Default Light"
with scrollbar_show absent. -/
theorem load_failure_returns_default :
    ∀ (parse : String → Option Json) (readResult : Option String),
      parse "" = none →
      ((readResult = none → load parse readResult = State.default)
       ∧ (∀ txt, readResult = some txt → parse txt = none →
            load parse readResult = State.default)
       ∧ (∀ txt j, readResult = some txt → parse txt = some j →
            State.fromJson j = none → load parse readResult = State.default)
       ∧ State.default = { theme := "Default Light", scrollbar_show := none }) := by
  intro parse readResult hempty
  refine ⟨?_, ?_, ?_, rfl⟩
  · rintro rfl
    simp [load, loadDoc, hempty]
  · rintro txt rfl htxt
    simp [load, loadDoc, htxt]
  · rintro txt j rfl htxt hj
    simp [load, loadDoc, htxt, hj]

/-- Witness for C2 at a concrete failing read with a parser rejecting the
empty string. -/
theorem load_failure_returns_default_witness :
    load (fun _ => none) none = State.default :=
  (load_failure_returns_default (fun _ => none) none rfl).1 rfl

/-- Deserializing the serialization of any State gives the State back. -/
theorem loadDoc_toJson (s : State) : loadDoc (some (State.toJson s)) = s := by
  cases s with
  | mk theme sb =>
    cases sb with
    | none =>
      simp [loadDoc, State.toJson, State.fromJson, State.fromFields, lookupField]
    | some v =>
      cases v <;>
        simp [loadDoc, State.toJson, State.fromJson, State.fromFields, lookupField,
          ScrollbarShow.toStr, ScrollbarShow.fromStr]

/-- C3: serializing any PersistedState with save and deserializing the
written document with load yields the same state, for every theme name
and every scrollbar_show value, present or absent. -/
theorem save_load_round_trip :
    ∀ s : State, loadDoc (some (State.toJson s)) = s :=
  fun s => loadDoc_toJson s

/-- Skipping or keeping a head field commutes with field visiting when the
tails deserialize identically from every pair of accumulators. -/
theorem fromFields_cons_cong (k : String) (v : Json) (r1 r2 : List (String × Json))
    (hr : ∀ ta sa, State.fromFields r1 ta sa = State.fromFields r2 ta sa) :
    ∀ ta sa, State.fromFields ((k, v) :: r1) ta sa = State.fromFields ((k, v) :: r2) ta sa := by
  intro ta sa
  simp only [State.fromFields]
  repeat' split
  all_goals first | rfl | exact hr _ _

/-- Field visiting depends only on the documented fields: removing every
unknown field leaves the result unchanged. -/
theorem fromFields_filter (fields : List (String × Json)) :
    ∀ ta sa, State.fromFields fields ta sa
      = State.fromFields (fields.filter isKnownField) ta sa := by
  induction fields with
  | nil => intro ta sa; rfl
  | cons kv rest ih =>
    obtain ⟨k, v⟩ := kv
    by_cases hk : isKnownField (k, v) = true
    · rw [List.filter_cons_of_pos hk]
      exact fromFields_cons_cong k v rest (rest.filter isKnownField) ih
    · rw [List.filter_cons_of_neg hk]
      intro ta sa
      have h1 : ¬ k = "theme" := by
        intro h
        exact hk (by simp [isKnownField, h])
      have h2 : ¬ k = "scrollbar_show" := by
        intro h
        exact hk (by simp [isKnownField, h])
      simp only [State.fromFields, if_neg h1, if_neg h2]
      exact ih ta sa

/-- A record with no theme field never sets the theme accumulator, so its
deserialization fails with missing_field. -/
theorem fromFields_no_theme (fields : List (String × Json)) :
    lookupField fields "theme" = none →
    ∀ sa, State.fromFields fields none sa = none := by
  induction fields with
  | nil => intro h sa; rfl
  | cons kv rest ih =>
    obtain ⟨k, v⟩ := kv
    intro h sa
    rw [lookupField] at h
    by_cases h1 : k = "theme"
    · rw [if_pos h1] at h
      exact Option.noConfusion h
    · rw [if_neg h1] at h
      simp only [State.fromFields, if_neg h1]
      by_cases h2 : k = "scrollbar_show"
      · simp only [if_pos h2]
        repeat' split
        all_goals first | rfl | exact ih h _
      · simp only [if_neg h2]
        exact ih h sa

/-- A record with no scrollbar_show field never sets its accumulator, so
after defaulting the loaded scrollbar_show is absent whether the record
deserializes or falls back to the default state. -/
theorem fromFields_no_scrollbar (fields : List (String × Json)) :
    lookupField fields "scrollbar_show" = none →
    ∀ ta, ((State.fromFields fields ta none).getD State.default).scrollbar_show = none := by
  induction fields with
  | nil => intro h ta; cases ta <;> rfl
  | cons kv rest ih =>
    obtain ⟨k, v⟩ := kv
    intro h ta
    rw [lookupField] at h
    by_cases h2 : k = "scrollbar_show"
    · rw [if_pos h2] at h
      exact Option.noConfusion h
    · rw [if_neg h2] at h
      by_cases h1 : k = "theme"
      · simp only [State.fromFields, if_pos h1]
        repeat' split
        all_goals first | rfl | exact ih h _
      · simp only [State.fromFields, if_neg h1, if_neg h2]
        exact ih h ta

/-- C7: load ignores unknown fields and supplies defaults for missing
documented fields: a record loads exactly as the record with all unknown
fields removed (so extra fields never change the result); the spec's
concrete example with an extra field loads as {theme "X", scrollbar_show
absent}; a record with no theme field loads with the default theme; a
record with no scrollbar_show field loads with the default absent
scrollbar_show. -/
theorem load_field_tolerance :
    (∀ fields : List (String × Json),
       loadDoc (some (Json.obj fields))
         = loadDoc (some (Json.obj (fields.filter isKnownField))))
    ∧ loadDoc (some (Json.obj
        [("theme", Json.str "X"), ("scrollbar_show", Json.null), ("extra", Json.bool true)]))
        = { theme := "X", scrollbar_show := none }
    ∧ (∀ fields, lookupField fields "theme" = none →
         (loadDoc (some (Json.obj fields))).theme = State.default.theme)
    ∧ (∀ fields, lookupField fields "scrollbar_show" = none →
         (loadDoc (some (Json.obj fields))).scrollbar_show = none) := by
  refine ⟨?_, ?_, ?_, ?_⟩
  · intro fields
    show (State.fromFields fields none none).getD State.default
      = (State.fromFields (fields.filter isKnownField) none none).getD State.default
    rw [fromFields_filter fields none none]
  · decide
  · intro fields h
    show ((State.fromFields fields none none).getD State.default).theme
      = State.default.theme
    rw [fromFields_no_theme fields h none]
    rfl
  · intro fields h
    show ((State.fromFields fields none none).getD State.default).scrollbar_show = none
    exact fromFields_no_scrollbar fields h none

/-- Witness for C7: a record with an extra unknown field loads exactly as
the record with the unknown field filtered away, and the missing-field
defaults at concrete inputs. -/
theorem load_field_tolerance_witness :
    loadDoc (some (Json.obj [("theme", Json.str "X"), ("extra", Json.bool true)]))
      = loadDoc (some (Json.obj
          ([("theme", Json.str "X"), ("extra", Json.bool true)].filter isKnownField)))
    ∧ (loadDoc (some (Json.obj [("scrollbar_show", Json.str "hover")]))).theme
      = State.default.theme
    ∧ (loadDoc (some (Json.obj [("theme", Json.str "X"), ("extra", Json.bool true)]))).scrollbar_show
      = none :=
  ⟨load_field_tolerance.1 _,
   load_field_tolerance.2.2.1 _ rfl,
   load_field_tolerance.2.2.2 _ rfl⟩

/-- C5: the SwitchTheme handler applies the registered configuration, so
the global Theme's theme_name becomes the dispatched name when it is
registered, and leaves the global Theme entirely unchanged when the name
is not registered. -/
theorem switch_theme_action_semantics :
    ∀ (reg : Registry) (n : String) (t : Theme),
      (∀ c, themesGet reg n = some c → (onSwitchTheme reg n t).theme_name = n)
      ∧ (themesGet reg n = none → onSwitchTheme reg n t = t) := by
  intro reg n t
  constructor
  · intro c hc
    have hname : c.name = n := themesGet_name reg n c hc
    simp [onSwitchTheme, hc, applyConfig, hname]
  · intro hc
    simp [onSwitchTheme, hc]

/-- Witness for C5: with only "Y" registered, dispatching SwitchTheme("Y")
makes the theme name "Y", and SwitchTheme("nope") leaves the Theme
unchanged. -/
theorem switch_theme_action_semantics_witness :
    (onSwitchTheme [{ name := "Y", payload := "py" }] "Y"
        { theme_name := "Default Light", scrollbar_show := ScrollbarShow.always,
          payload := "p0" }).theme_name = "Y"
    ∧ onSwitchTheme [{ name := "Y", payload := "py" }] "nope"
        { theme_name := "Default Light", scrollbar_show := ScrollbarShow.always,
          payload := "p0" }
        = { theme_name := "Default Light", scrollbar_show := ScrollbarShow.always,
            payload := "p0" } :=
  ⟨(switch_theme_action_semantics _ _ _).1 { name := "Y", payload := "py" } rfl,
   (switch_theme_action_semantics _ _ _).2 rfl⟩

/-- C6: on each watcher invocation after a registry reload, if the saved
theme name is present in the refreshed registry its configuration is
applied (so the theme name becomes the saved name); if it is absent the
global Theme is left unchanged. -/
theorem watcher_reapply_semantics :
    ∀ (saved : String) (reg : Registry) (t : Theme),
      (∀ c, themesGet reg saved = some c →
         watcherCallback saved reg t = applyConfig t c
         ∧ (watcherCallback saved reg t).theme_name = saved)
      ∧ (themesGet reg saved = none → watcherCallback saved reg t = t) := by
  intro saved reg t
  constructor
  · intro c hc
    have hname : c.name = saved := themesGet_name reg saved c hc
    constructor
    · simp [watcherCallback, hc]
    · simp [watcherCallback, hc, applyConfig, hname]
  · intro hc
    simp [watcherCallback, hc]

/-- Witness for C6: a reload whose refreshed registry contains the saved
name "Z" makes the global Theme "Z" even though it was something else,
and one lacking it leaves the Theme unchanged. -/
theorem watcher_reapply_semantics_witness :
    (watcherCallback "Z" [{ name := "Z", payload := "pz" }]
        { theme_name := "Other", scrollbar_show := ScrollbarShow.hover,
          payload := "p1" }).theme_name = "Z"
    ∧ watcherCallback "Z" []
        { theme_name := "Other", scrollbar_show := ScrollbarShow.hover, payload := "p1" }
        = { theme_name := "Other", scrollbar_show := ScrollbarShow.hover, payload := "p1" } :=
  ⟨((watcher_reapply_semantics "Z" [{ name := "Z", payload := "pz" }]
      { theme_name := "Other", scrollbar_show := ScrollbarShow.hover, payload := "p1" }).1
      { name := "Z", payload := "pz" } rfl).2,
   (watcher_reapply_semantics "Z" []
      { theme_name := "Other", scrollbar_show := ScrollbarShow.hover, payload := "p1" }).2 rfl⟩

/-- C8: on every observed mutation of the global Theme, the persisted
document is the serialization of a fresh PersistedState built from the
Theme's current name and its current scrollbar setting wrapped in Some;
in particular the written state's scrollbar_show is never absent. -/
theorem observer_persists_fresh_state :
    ∀ (s0 : Sys) (t1 : Theme),
      (step s0 (Event.mutate t1)).file
        = some (State.toJson { theme := t1.theme_name, scrollbar_show := some t1.scrollbar_show })
      ∧ observerWrite t1
        = State.toJson { theme := t1.theme_name, scrollbar_show := some t1.scrollbar_show }
      ∧ (loadDoc (step s0 (Event.mutate t1)).file).scrollbar_show = some t1.scrollbar_show :=
  fun s0 t1 =>
    ⟨rfl, rfl, by
      show (loadDoc (some (observerWrite t1))).scrollbar_show = some t1.scrollbar_show
      rw [show observerWrite t1 = State.toJson (observedState t1) from rfl,
        loadDoc_toJson (observedState t1)]
      rfl⟩

/-- C9: the watcher closure captures the init-time loaded state by value:
after any sequence of SwitchTheme dispatches, registry reloads and global
Theme mutations, the name the controller looks up on the next reload is
still the theme name loaded from the config document at init. -/
theorem watcher_captures_init_state :
    ∀ (doc : Option Json) (reg : Registry) (t0 : Theme) (events : List Event) (r2 : Registry),
      (events.foldl step (init doc reg t0)).savedName = (loadDoc doc).theme
      ∧ (step (events.foldl step (init doc reg t0)) (Event.reload r2)).theme
          = watcherCallback (loadDoc doc).theme r2
              (events.foldl step (init doc reg t0)).theme := by
  intro doc reg t0 events r2
  have hstep : ∀ (s : Sys) (e : Event), (step s e).savedName = s.savedName := by
    intro s e
    cases e with
    | switchTheme n =>
      simp only [step]
      cases themesGet s.registry n <;> rfl
    | reload r =>
      simp only [step]
      cases themesGet r s.savedName <;> rfl
    | mutate t1 => rfl
  have hsaved : ∀ (l : List Event) (s : Sys), (l.foldl step s).savedName = s.savedName := by
    intro l
    induction l with
    | nil => intro s; rfl
    | cons e tl ih =>
      intro s
      rw [List.foldl_cons, ih, hstep]
  have hreload : ∀ (s : Sys) (r : Registry),
      (step s (Event.reload r)).theme = watcherCallback s.savedName r s.theme := by
    intro s r
    simp only [step, watcherCallback]
    cases themesGet r s.savedName <;> rfl
  have h1 : (events.foldl step (init doc reg t0)).savedName = (loadDoc doc).theme := by
    rw [hsaved]
    rfl
  exact ⟨h1, by rw [hreload, h1]⟩

/-- C1: the global-Theme observer of the Crates copy swallows both
serialize and write failures, returning normally on every write outcome;
the RootSrc copy instead unwraps the write result and panics when the
config directory is unwritable, contradicting the specified
write-failure tolerance. -/
theorem observer_write_error_divergence :
    (∀ (w : Except String Unit) (t : Theme), observerSaveCrates w t = Except.ok ())
    ∧ observerSaveRoot (Except.error "read-only config dir")
        { theme_name := "Default Light", scrollbar_show := ScrollbarShow.hover,
          payload := "p0" }
        = Except.error "read-only config dir" :=
  ⟨fun _ _ => rfl, rfl⟩

end HelloGP
